import Mathlib

/-!
Verification of the planetary-health query engine's scoring, normalization,
quality-assessment and orchestration logic, shallowly embedded from the
Python sources (planetary_health_query/utils/normalization.py, scoring.py,
quality.py, core/engine.py, core/config.py, pillars/base.py,
pillars/atmospheric.py).  Real-valued code (exp/log) is embedded over the
reals; purely arithmetic code over the rationals.  Python `round(x, n)` is
embedded as rounding of `x * 10^n` to the nearest integer; no statement below
depends on the tie-breaking direction.
-/

namespace PlanetaryHealth

/-- Rounding to 2 decimal places, embedding Python `round(x, 2)`. -/
def round2 {α : Type} [LinearOrderedField α] [FloorRing α] (x : α) : α :=
  (round (x * 100) : ℤ) / 100

/-- Rounding to 4 decimal places, embedding Python `round(x, 4)`. -/
def round4 {α : Type} [LinearOrderedField α] [FloorRing α] (x : α) : α :=
  (round (x * 10000) : ℤ) / 10000

/-! ## Normalization library (utils/normalization.py) -/

/-- `linear_normalize` from normalization.py. -/
noncomputable def linear_normalize (value v_min v_max : ℝ) : ℝ :=
  if v_max = v_min then 50
  else
    let clamped := max v_min (min v_max value)
    let score := (clamped - v_min) / (v_max - v_min) * 100
    max 0 (min 100 score)

/-- `inverse_linear_normalize` from normalization.py. -/
noncomputable def inverse_linear_normalize (value v_min v_max : ℝ) : ℝ :=
  if v_max = v_min then 50
  else
    let clamped := max v_min (min v_max value)
    let score := (v_max - clamped) / (v_max - v_min) * 100
    max 0 (min 100 score)

/-- `sigmoid_normalize` from normalization.py: the steepness is rescaled by
the metric range and the exponent is guarded at plus/minus 700. -/
noncomputable def sigmoid_normalize (value v_min v_max k : ℝ) (v_mid : Option ℝ) : ℝ :=
  let vmid := v_mid.getD ((v_min + v_max) / 2)
  let range_val := v_max - v_min
  let k_scaled := if range_val > 0 then k * (10 / range_val) else k
  let exponent := -k_scaled * (value - vmid)
  if exponent > 700 then 0
  else if exponent < -700 then 100
  else max 0 (min 100 (100 / (1 + Real.exp exponent)))

/-- `inverse_sigmoid_normalize` from normalization.py. -/
noncomputable def inverse_sigmoid_normalize (value v_min v_max k : ℝ) (v_mid : Option ℝ) : ℝ :=
  100 - sigmoid_normalize value v_min v_max k v_mid

/-- `gaussian_normalize` from normalization.py. -/
noncomputable def gaussian_normalize (value v_opt sigma : ℝ) (v_min v_max : Option ℝ) : ℝ :=
  let v := match v_min, v_max with
    | some a, some b => max a (min b value)
    | _, _ => value
  if sigma = 0 then (if v = v_opt then 100 else 0)
  else max 0 (min 100 (100 * Real.exp (-((v - v_opt) ^ 2) / (2 * sigma ^ 2))))

/-- `centered_normalize` from normalization.py. -/
noncomputable def centered_normalize (value v_max : ℝ) : ℝ :=
  if v_max = 0 then (if value = 0 then 100 else 0)
  else max 0 (min 100 (100 * (1 - |value| / |v_max|)))

/-- `normalize_value` from normalization.py: dispatch on the norm-type
string, `None` propagating, unknown types defaulting to linear. -/
noncomputable def normalize_value (value : Option ℝ) (norm_type : String)
    (v_min v_max : ℝ) (v_opt sigma : Option ℝ) (k : ℝ) (v_mid : Option ℝ) : Option ℝ :=
  match value with
  | none => none
  | some v =>
    if norm_type = "linear" then some (linear_normalize v v_min v_max)
    else if norm_type = "inverse_linear" then some (inverse_linear_normalize v v_min v_max)
    else if norm_type = "sigmoid" then some (sigmoid_normalize v v_min v_max k v_mid)
    else if norm_type = "inverse_sigmoid" then some (inverse_sigmoid_normalize v v_min v_max k v_mid)
    else if norm_type = "gaussian" then
      let vopt := v_opt.getD ((v_min + v_max) / 2)
      let sg := sigma.getD ((v_max - v_min) / 4)
      some (gaussian_normalize v vopt sg (some v_min) (some v_max))
    else if norm_type = "centered" then some (centered_normalize v v_max)
    else some (linear_normalize v v_min v_max)

/-! Range lemmas for the individual normalizers. -/

lemma clamp01_mem (x : ℝ) : 0 ≤ max 0 (min 100 x) ∧ max 0 (min 100 x) ≤ 100 :=
  ⟨le_max_left 0 _, max_le (by norm_num) (min_le_left 100 x)⟩

lemma linear_normalize_mem (value v_min v_max : ℝ) :
    0 ≤ linear_normalize value v_min v_max ∧ linear_normalize value v_min v_max ≤ 100 := by
  unfold linear_normalize
  split
  · norm_num
  · exact clamp01_mem _

lemma inverse_linear_normalize_mem (value v_min v_max : ℝ) :
    0 ≤ inverse_linear_normalize value v_min v_max ∧
      inverse_linear_normalize value v_min v_max ≤ 100 := by
  unfold inverse_linear_normalize
  split
  · norm_num
  · exact clamp01_mem _

lemma sigmoid_normalize_mem (value v_min v_max k : ℝ) (v_mid : Option ℝ) :
    0 ≤ sigmoid_normalize value v_min v_max k v_mid ∧
      sigmoid_normalize value v_min v_max k v_mid ≤ 100 := by
  unfold sigmoid_normalize
  dsimp only
  split_ifs <;> norm_num

lemma inverse_sigmoid_normalize_mem (value v_min v_max k : ℝ) (v_mid : Option ℝ) :
    0 ≤ inverse_sigmoid_normalize value v_min v_max k v_mid ∧
      inverse_sigmoid_normalize value v_min v_max k v_mid ≤ 100 := by
  unfold inverse_sigmoid_normalize
  have h := sigmoid_normalize_mem value v_min v_max k v_mid
  constructor <;> linarith [h.1, h.2]

lemma gaussian_normalize_mem (value v_opt sigma : ℝ) (v_min v_max : Option ℝ) :
    0 ≤ gaussian_normalize value v_opt sigma v_min v_max ∧
      gaussian_normalize value v_opt sigma v_min v_max ≤ 100 := by
  unfold gaussian_normalize
  cases v_min <;> cases v_max <;> dsimp only <;> split_ifs <;> norm_num

lemma centered_normalize_mem (value v_max : ℝ) :
    0 ≤ centered_normalize value v_max ∧ centered_normalize value v_max ≤ 100 := by
  unfold centered_normalize
  split_ifs <;> norm_num

/-- Claim C1: for every raw value, normalization type and parameter set,
`normalize_value` returns a score in the interval from 0 to 100, and returns
`none` exactly when the raw value is `none`; this covers raw values outside
the reference range and degenerate parameters (equal endpoints, zero sigma,
huge exponents), and over the reals no NaN or infinity can arise. -/
theorem normalize_value_in_range_or_none (value : Option ℝ) (norm_type : String)
    (v_min v_max : ℝ) (v_opt sigma : Option ℝ) (k : ℝ) (v_mid : Option ℝ) :
    (normalize_value value norm_type v_min v_max v_opt sigma k v_mid = none ↔ value = none) ∧
    (normalize_value value norm_type v_min v_max v_opt sigma k v_mid).elim True
      (fun s => 0 ≤ s ∧ s ≤ 100) := by
  cases value with
  | none => simp [normalize_value]
  | some v =>
    unfold normalize_value
    refine ⟨by split_ifs <;> simp, ?_⟩
    split_ifs <;>
      simp only [Option.elim_some] <;>
      first
        | exact linear_normalize_mem v v_min v_max
        | exact inverse_linear_normalize_mem v v_min v_max
        | exact sigmoid_normalize_mem v v_min v_max k v_mid
        | exact inverse_sigmoid_normalize_mem v v_min v_max k v_mid
        | exact gaussian_normalize_mem v _ _ (some v_min) (some v_max)
        | exact centered_normalize_mem v v_max

/-! ## Static configuration (core/config.py) -/

/-- One entry of `PHI_METRIC_PARAMS`; optional config keys are `Option`. -/
structure MetricParam where
  name : String
  v_min : ℚ
  v_max : ℚ
  v_mid : Option ℚ := none
  v_opt : Option ℚ := none
  sigma : Option ℚ := none
  k : Option ℚ := none
  norm_type : String
  weight : ℚ
  criticality : String
  category : String
deriving DecidableEq

/-- `PHI_METRIC_PARAMS` from core/config.py, all 25 metrics. -/
def PHI_METRIC_PARAMS : List MetricParam := [
  { name := "aod", v_min := 0, v_max := 1.5, norm_type := "inverse_linear",
    weight := 0.40, criticality := "important", category := "A" },
  { name := "aqi", v_min := 0, v_max := 300, norm_type := "inverse_linear",
    weight := 0.40, criticality := "important", category := "A" },
  { name := "uv_index", v_min := 0, v_max := 11, v_mid := some 5.5, k := some 0.5,
    norm_type := "sigmoid", weight := 0.10, criticality := "auxiliary", category := "A" },
  { name := "visibility", v_min := 1, v_max := 50, norm_type := "linear",
    weight := 0.10, criticality := "auxiliary", category := "A" },
  { name := "cloud_fraction", v_min := 0, v_max := 1, norm_type := "inverse_linear",
    weight := 0, criticality := "auxiliary", category := "A" },
  { name := "ndvi", v_min := -0.1, v_max := 0.9, norm_type := "linear",
    weight := 0.35, criticality := "critical", category := "B" },
  { name := "evi", v_min := 0, v_max := 1, norm_type := "linear",
    weight := 0.35, criticality := "important", category := "B" },
  { name := "lai", v_min := 0, v_max := 7, v_mid := some 3.5, k := some 0.5,
    norm_type := "sigmoid", weight := 0.15, criticality := "supporting", category := "B" },
  { name := "fpar", v_min := 0, v_max := 0.95, norm_type := "linear",
    weight := 0.15, criticality := "supporting", category := "B" },
  { name := "land_cover", v_min := 10, v_max := 100, norm_type := "linear",
    weight := 0, criticality := "auxiliary", category := "B" },
  { name := "tree_cover", v_min := 0, v_max := 100, norm_type := "linear",
    weight := 0.35, criticality := "critical", category := "C" },
  { name := "biomass", v_min := 0, v_max := 400, v_mid := some 200, k := some 0.5,
    norm_type := "sigmoid", weight := 0.35, criticality := "important", category := "C" },
  { name := "canopy_height", v_min := 0, v_max := 40, v_mid := some 20, k := some 0.5,
    norm_type := "sigmoid", weight := 0.15, criticality := "important", category := "C" },
  { name := "forest_loss", v_min := 0, v_max := 10, norm_type := "inverse_linear",
    weight := 0.15, criticality := "supporting", category := "C" },
  { name := "carbon_stock", v_min := 0, v_max := 200, v_mid := some 100, k := some 0.5,
    norm_type := "sigmoid", weight := 0, criticality := "important", category := "C" },
  { name := "lst", v_min := 15, v_max := 45, v_opt := some 25, sigma := some 8,
    norm_type := "gaussian", weight := 0.15, criticality := "supporting", category := "D" },
  { name := "soil_moisture", v_min := 0.05, v_max := 0.45, v_opt := some 0.30, sigma := some 0.12,
    norm_type := "gaussian", weight := 0.35, criticality := "critical", category := "D" },
  { name := "drought_index", v_min := -2, v_max := 2, norm_type := "centered",
    weight := 0.35, criticality := "important", category := "D" },
  { name := "evaporative_stress", v_min := -1, v_max := 1, norm_type := "centered",
    weight := 0.15, criticality := "supporting", category := "D" },
  { name := "water_occurrence", v_min := 0, v_max := 100, norm_type := "linear",
    weight := 0, criticality := "auxiliary", category := "D" },
  { name := "human_modification", v_min := 0, v_max := 1, norm_type := "inverse_linear",
    weight := 0.50, criticality := "critical", category := "E" },
  { name := "population", v_min := 0, v_max := 5000, v_mid := some 500, k := some 0.3,
    norm_type := "inverse_sigmoid", weight := 0.17, criticality := "supporting", category := "E" },
  { name := "nightlights", v_min := 0, v_max := 63, v_mid := some 20, k := some 0.3,
    norm_type := "inverse_sigmoid", weight := 0.17, criticality := "supporting", category := "E" },
  { name := "distance_to_water", v_min := 0, v_max := 50, norm_type := "inverse_linear",
    weight := 0.16, criticality := "auxiliary", category := "E" },
  { name := "elevation", v_min := 0, v_max := 5000, norm_type := "linear",
    weight := 0, criticality := "auxiliary", category := "E" }]

/-- `CRITICALITY_WEIGHTS` from core/config.py. -/
def CRITICALITY_WEIGHTS : List (String × ℚ) :=
  [("critical", 1), ("important", 0.7), ("supporting", 0.4), ("auxiliary", 0.2)]

/-- `CRITICALITY_WEIGHTS.get(criticality, 0.4)` as used in quality.py. -/
def criticalityWeight (c : String) : ℚ :=
  ((CRITICALITY_WEIGHTS.find? (fun e => e.1 = c)).map (fun e => e.2)).getD 0.4

/-- `ECOSYSTEM_CATEGORY_WEIGHTS` from core/config.py (pillar weights only;
the description strings are dropped as the code filters them out). -/
def ECOSYSTEM_CATEGORY_WEIGHTS : List (String × List (String × ℚ)) := [
  ("tropical_forest", [("A", 0.10), ("B", 0.25), ("C", 0.35), ("D", 0.15), ("E", 0.15)]),
  ("mangrove", [("A", 0.10), ("B", 0.20), ("C", 0.30), ("D", 0.25), ("E", 0.15)]),
  ("grassland_savanna", [("A", 0.15), ("B", 0.30), ("C", 0.15), ("D", 0.25), ("E", 0.15)]),
  ("wetland", [("A", 0.10), ("B", 0.25), ("C", 0.20), ("D", 0.30), ("E", 0.15)]),
  ("agricultural", [("A", 0.20), ("B", 0.25), ("C", 0.10), ("D", 0.25), ("E", 0.20)]),
  ("urban_green", [("A", 0.30), ("B", 0.25), ("C", 0.10), ("D", 0.15), ("E", 0.20)]),
  ("default", [("A", 0.20), ("B", 0.20), ("C", 0.20), ("D", 0.20), ("E", 0.20)])]

/-- `ECOSYSTEM_CATEGORY_WEIGHTS.get(ecosystem_type, .["default"])`. -/
def ecosystemProfile (ecosystem_type : String) : List (String × ℚ) :=
  ((ECOSYSTEM_CATEGORY_WEIGHTS.find? (fun e => e.1 = ecosystem_type)).map
    (fun e => e.2)).getD [("A", 0.20), ("B", 0.20), ("C", 0.20), ("D", 0.20), ("E", 0.20)]

/-- `LANDCOVER_TO_ECOSYSTEM` from core/config.py. -/
def LANDCOVER_TO_ECOSYSTEM : List (ℤ × String) := [
  (10, "tropical_forest"), (20, "grassland_savanna"), (30, "grassland_savanna"),
  (40, "agricultural"), (50, "urban_green"), (60, "default"), (70, "default"),
  (80, "wetland"), (90, "wetland"), (95, "mangrove"), (100, "default")]

/-! ## Scoring engine (utils/scoring.py) -/

/-- `PHI_METRIC_PARAMS.get(metric_name)`. -/
def phiParamsLookup (metric_name : String) : Option MetricParam :=
  PHI_METRIC_PARAMS.find? (fun p => p.name = metric_name)

/-- `normalize_metric` from scoring.py: look up the metric's configured
parameters and dispatch on its norm type with the source's defaults. -/
noncomputable def normalize_metric (metric_name : String) (value : Option ℝ) : Option ℝ :=
  match value with
  | none => none
  | some v =>
    match phiParamsLookup metric_name with
    | none => none
    | some params =>
      let nt := params.norm_type
      let vmin : ℝ := (params.v_min : ℝ)
      let vmax : ℝ := (params.v_max : ℝ)
      let kk : ℝ := ((params.k.getD 0.5 : ℚ) : ℝ)
      let vmid : Option ℝ := params.v_mid.map (fun q => (q : ℝ))
      if nt = "linear" then some (linear_normalize v vmin vmax)
      else if nt = "inverse_linear" then some (inverse_linear_normalize v vmin vmax)
      else if nt = "sigmoid" then some (sigmoid_normalize v vmin vmax kk vmid)
      else if nt = "inverse_sigmoid" then some (inverse_sigmoid_normalize v vmin vmax kk vmid)
      else if nt = "gaussian" then
        let vopt : ℝ := ((params.v_opt.map (fun q => (q : ℝ))).getD ((vmin + vmax) / 2))
        let sg : ℝ := ((params.sigma.map (fun q => (q : ℝ))).getD ((vmax - vmin) / 4))
        some (gaussian_normalize v vopt sg (some vmin) (some vmax))
      else if nt = "centered" then some (centered_normalize v vmax)
      else some (linear_normalize v vmin vmax)

/-- Loop body of `calculate_category_score`: accumulate (weighted sum, total
weight, per-metric rounded scores) over one metrics-dict entry. -/
noncomputable def categoryStep (category_id : String)
    (acc : ℝ × ℝ × List (String × ℝ)) (m : String × Option ℝ) : ℝ × ℝ × List (String × ℝ) :=
  match m.2 with
  | none => acc
  | some v =>
    match phiParamsLookup m.1 with
    | none => acc
    | some params =>
      if params.category ≠ "" ∧ params.category ≠ category_id then acc
      else
        match normalize_metric m.1 (some v) with
        | none => acc
        | some score =>
          let scores := acc.2.2 ++ [(m.1, round2 score)]
          if params.weight > 0 then
            (acc.1 + score * (params.weight : ℝ), acc.2.1 + (params.weight : ℝ), scores)
          else (acc.1, acc.2.1, scores)

/-- `calculate_category_score` from scoring.py: weighted average of the
normalized scores of the metrics in the category (weight > 0 only). -/
noncomputable def calculate_category_score (category_id : String)
    (metrics : List (String × Option ℝ)) : Option ℝ × List (String × ℝ) :=
  if metrics = [] then (none, [])
  else
    let acc := metrics.foldl (categoryStep category_id) (0, 0, [])
    if acc.2.1 = 0 then (none, acc.2.2)
    else (some (round2 (acc.1 / acc.2.1)), acc.2.2)

/-- `calculate_pillar_score` from scoring.py: the category score rounded to
an integer, or `none`. -/
noncomputable def calculate_pillar_score (pillar_id : String)
    (metrics : List (String × Option ℝ)) : Option ℤ :=
  (calculate_category_score pillar_id metrics).1.map (fun s => round s)

/-- `weights.get(pillar_id, 0.20)` inside `calculate_overall_score`. -/
def pillarWeight (ecosystem_type pillar_id : String) : ℚ :=
  (((ecosystemProfile ecosystem_type).find? (fun e => e.1 = pillar_id)).map
    (fun e => e.2)).getD 0.20

/-- Loop body of `calculate_overall_score`: skip null scores, otherwise
accumulate the weighted score and the weight. -/
def overallStep (ecosystem_type : String) (a : ℚ × ℚ) (p : String × Option ℚ) : ℚ × ℚ :=
  match p.2 with
  | none => a
  | some s =>
    let w := pillarWeight ecosystem_type p.1
    (a.1 + s * w, a.2 + w)

/-- `calculate_overall_score` from scoring.py: ecosystem-weighted average of
the non-null pillar scores, renormalized by the weight actually used. -/
def calculate_overall_score (pillar_scores : List (String × Option ℚ))
    (ecosystem_type : String) : Option ℚ :=
  if pillar_scores = [] then none
  else
    let acc := pillar_scores.foldl (overallStep ecosystem_type) (0, 0)
    if acc.2 = 0 then none else some (round2 (acc.1 / acc.2))

/-- `PHI_ESV_CONSTANTS` k from core/config.py. -/
def PHI_ESV_k : ℚ := 0.6

/-- `PHI_ESV_CONSTANTS` alpha from core/config.py. -/
def PHI_ESV_alpha : ℚ := 0.15

/-- `calculate_phi_esv_multiplier` from scoring.py: `None` for a null or
non-positive PHI, otherwise the clamped-log multiplier rounded to 4 places. -/
noncomputable def calculate_phi_esv_multiplier (phi_score : Option ℝ) : Option ℝ :=
  match phi_score with
  | none => none
  | some phi =>
    if phi ≤ 0 then none
    else
      let phi_clamped := max phi 1
      let base := (phi_clamped - 50) / 100
      let ratio := phi_clamped / 50
      if ratio ≤ 0 then none
      else some (round4 (base * (PHI_ESV_k : ℝ) * (1 + (PHI_ESV_alpha : ℝ) * Real.log ratio)))

/-- `get_score_interpretation` from scoring.py. -/
def get_score_interpretation (score : Option ℤ) : String :=
  match score with
  | none => "Unavailable"
  | some s =>
    if s ≥ 80 then "Excellent"
    else if s ≥ 60 then "Good"
    else if s ≥ 40 then "Moderate"
    else if s ≥ 20 then "Poor"
    else "Critical"

/-! ## Quality assessor (utils/quality.py) -/

/-- Loop body of `calculate_dqs`: skip zero-weight informational metrics,
otherwise accumulate the criticality-weighted availability score. -/
def dqsStep (avail : String → Bool) (flags : String → String)
    (a : ℚ × ℚ) (m : MetricParam) : ℚ × ℚ :=
  let w := criticalityWeight m.criticality
  if m.weight = 0 then a
  else
    let q := flags m.name
    let s : ℚ :=
      if ¬ avail m.name ∨ q = "unavailable" then 0
      else if q = "poor" then 0.25
      else if q = "moderate" then 0.5
      else 1
    (a.1 + w * s, a.2 + w)

/-- `calculate_dqs` from quality.py: iterate over all configured metrics,
skip the zero-weight informational ones, and average the criticality-weighted
availability scores. -/
def calculate_dqs (avail : String → Bool) (flags : String → String) : ℚ :=
  let acc := PHI_METRIC_PARAMS.foldl (dqsStep avail flags) (0, 0)
  if acc.2 = 0 then 0 else round2 (acc.1 / acc.2 * 100)

/-! ## Query orchestrator (core/engine.py) and pillar handlers (pillars/) -/

/-- The five pillar identifiers. -/
inductive Pillar where
  | A | B | C | D | E
deriving DecidableEq, Repr

/-- Pillar-id letter, the first character of the result key. -/
def Pillar.pid : Pillar → String
  | .A => "A" | .B => "B" | .C => "C" | .D => "D" | .E => "E"

/-- Dispatch order of the pillars, `list(self._pillars.keys())`. -/
def pillarsOrder : List Pillar := [.A, .B, .C, .D, .E]

/-- Per-pillar entry of the result: the captured error (if the handler
threw), the metrics dict (name to raw value), and the score added later. -/
structure PillarData where
  error : Option String := none
  metrics : List (String × Option ℝ) := []
  score : Option ℤ := none

/-- `_query_sequential` / `_query_parallel` from engine.py: each handler's
outcome is recorded under its pillar key; an exception is captured as an
error entry with empty metrics for that pillar only.  (The parallel variant
produces the same per-pillar mapping, so one denotation covers both.) -/
def query_pillars (outcomes : Pillar → Except String (List (String × Option ℝ))) :
    Pillar → PillarData :=
  fun p =>
    match outcomes p with
    | .ok m => { metrics := m }
    | .error e => { error := some e, metrics := [] }

/-- `_add_scores` from engine.py: every pillar entry has a metrics dict, so
every entry gets a score (possibly null). -/
noncomputable def add_scores (results : Pillar → PillarData) : Pillar → PillarData :=
  fun p =>
    let d := results p
    { d with score := calculate_pillar_score p.pid d.metrics }

/-- The `pillar_scores` mapping built by `_create_summary`. -/
def summary_pillar_scores (results : Pillar → PillarData) : List (String × Option ℚ) :=
  pillarsOrder.map (fun p => (p.pid, (results p).score.map (fun (z : ℤ) => (z : ℚ))))

/-- The `overall_score` field of `_create_summary`. -/
def summary_overall (results : Pillar → PillarData) (ecosystem_type : String) : Option ℚ :=
  calculate_overall_score (summary_pillar_scores results) ecosystem_type

/-- Python truthiness of an optional float: `None` and `0.0` are falsy. -/
def pyTruthy (x : Option ℚ) : Bool :=
  match x with
  | none => false
  | some q => q ≠ 0

/-- The `overall_interpretation` field of `_create_summary`, embedding
`get_score_interpretation(round(overall_score) if overall_score else None)`. -/
def summary_interpretation (overall_score : Option ℚ) : String :=
  get_score_interpretation
    (if pyTruthy overall_score then (overall_score.map (fun s => round s)) else none)

/-- The `esv_multiplier` field of `_create_summary`, embedding
`calculate_phi_esv_multiplier(overall_score) if overall_score else None`. -/
noncomputable def summary_esv_multiplier (overall_score : Option ℚ) : Option ℝ :=
  if pyTruthy overall_score then
    calculate_phi_esv_multiplier (overall_score.map (fun s => (s : ℝ)))
  else none

/-- `detect_ecosystem_type` from engine.py. -/
def detect_ecosystem_type (land_cover_value : Option ℤ)
    (tree_cover human_modification : Option ℚ) : String :=
  match land_cover_value with
  | some lc =>
    let e0 := ((LANDCOVER_TO_ECOSYSTEM.find? (fun e => e.1 = lc)).map
      (fun e => e.2)).getD "default"
    let e1 :=
      match tree_cover with
      | some tc => if e0 = "tropical_forest" ∧ tc < 25 then "grassland_savanna" else e0
      | none => e0
    match human_modification with
    | some hm =>
      if hm > 0.6 ∧ e1 ≠ "urban_green" ∧ e1 ≠ "agricultural" then "urban_green" else e1
    | none => e1
  | none =>
    let hmFallback : String :=
      match human_modification with
      | some hm => if hm > 0.5 then "urban_green" else if hm > 0.3 then "agricultural" else "default"
      | none => "default"
    match tree_cover with
    | some tc =>
      if tc > 50 then "tropical_forest"
      else if tc > 10 then "grassland_savanna"
      else hmFallback
    | none => hmFallback

/-- Result of `_calculate_carbon_credits`: the area-error dict, the
insufficient-data dict, or the full calculation (rounded fields: carbon per
hectare, total carbon, CO2e, verified CO2e, confidence, and the low/mid/high
price estimates). -/
inductive CarbonCredits where
  | areaError : CarbonCredits
  | insufficient : CarbonCredits
  | ok (carbon_stock_mg_c_ha total_carbon_mg co2_equivalent_tonnes verified_co2_tonnes
      confidence_factor low_usd mid_usd high_usd : ℚ) : CarbonCredits
deriving DecidableEq

/-- `_calculate_carbon_credits` from engine.py.  Note `if dqs else 0.7`:
Python truthiness sends both a missing and a zero DQS to 0.7. -/
def calculate_carbon_credits (biomass carbon_stock tree_cover : Option ℚ)
    (area_ha : Option ℚ) (dqs : Option ℚ) : CarbonCredits :=
  match area_ha with
  | none => .areaError
  | some a =>
    if a ≤ 0 then .areaError
    else
      let carbon? : Option ℚ :=
        match carbon_stock with
        | some cs => some cs
        | none =>
          match biomass with
          | some b => some (b * 0.5)
          | none =>
            match tree_cover with
            | some tc => if tc > 0 then some (tc * 2) else none
            | none => none
      match carbon? with
      | none => .insufficient
      | some c =>
        let total := c * a
        let co2 := total * 3.67
        let conf : ℚ :=
          match dqs with
          | none => 0.7
          | some d => if d ≠ 0 then min (d / 100) 1 else 0.7
        let verified := co2 * conf
        .ok (round2 c) (round2 total) (round2 co2) (round2 verified) (round2 conf)
          (round2 (verified * 15)) (round2 (verified * 25)) (round2 (verified * 50))

/-- Base ESV table of `_calculate_esv` ($/ha/year by ecosystem type). -/
def BASE_ESV : List (String × ℚ) := [
  ("tropical_forest", 5382), ("mangrove", 9990), ("wetland", 25682),
  ("grassland_savanna", 2871), ("agricultural", 1532), ("urban_green", 3212),
  ("default", 3000)]

/-- Result of `_calculate_esv`: the area-error dict, an uncaught Python
TypeError (adding `None` to a number), or the valuation (adjusted $/ha,
total annual, 10-year and 30-year projections). -/
inductive EsvResult where
  | areaError : EsvResult
  | typeError : EsvResult
  | ok (adjusted_esv_per_ha total_annual esv_10yr esv_30yr : ℝ) : EsvResult

/-- `_calculate_esv` from engine.py.  When `phi_score` is not `None` the code
sets `esv_multiplier = calculate_phi_esv_multiplier(phi_score)`, which is
`None` for a non-positive score; `base_esv_per_ha * (1 + esv_multiplier)`
then raises TypeError, embedded as `.typeError`. -/
noncomputable def calculate_esv (phi_score : Option ℚ) (ecosystem_type : String)
    (area_ha : Option ℚ) : EsvResult :=
  match area_ha with
  | none => .areaError
  | some a =>
    if a ≤ 0 then .areaError
    else
      let base : ℚ :=
        ((BASE_ESV.find? (fun e => e.1 = ecosystem_type)).map (fun e => e.2)).getD 3000
      let mult : Option ℝ :=
        match phi_score with
        | some p => calculate_phi_esv_multiplier (some (p : ℝ))
        | none => some 0
      match mult with
      | none => .typeError
      | some m =>
        let adjusted : ℝ := (base : ℝ) * (1 + m)
        let total : ℝ := adjusted * (a : ℝ)
        let esv10 : ℝ := ((List.range 10).map (fun i => total * (1.02 : ℝ) ^ i)).sum
        let esv30 : ℝ := ((List.range 30).map (fun i => total * (1.02 : ℝ) ^ i)).sum
        .ok adjusted total esv10 esv30

/-- `get_simple_metrics` of the five pillar handler classes. -/
def simpleMetrics : Pillar → List String
  | .A => ["aod", "aqi"]
  | .B => ["ndvi", "evi"]
  | .C => ["tree_cover", "forest_loss"]
  | .D => ["lst", "soil_moisture"]
  | .E => ["population", "nightlights"]

/-- `get_comprehensive_metrics` of the five pillar handler classes. -/
def comprehensiveMetrics : Pillar → List String
  | .A => ["aod", "aqi", "uv_index", "visibility", "cloud_fraction"]
  | .B => ["ndvi", "evi", "lai", "land_cover", "fpar"]
  | .C => ["tree_cover", "forest_loss", "canopy_height", "biomass", "carbon_stock"]
  | .D => ["lst", "soil_moisture", "water_occurrence", "drought_index", "evaporative_stress"]
  | .E => ["population", "nightlights", "human_modification", "elevation", "distance_to_water"]

/-- `BasePillar.query` from pillars/base.py, up to the `query_metrics`
dispatch: validate latitude then longitude (raising `ValueError`), select the
metric list by mode (any mode other than "simple" selects the comprehensive
set), and dispatch.  The returned list is the metric list handed to the
`query_metrics` fetch. -/
def base_pillar_query (p : Pillar) (lat lon : ℚ) (mode : String) :
    Except String (List String) :=
  if ¬(-90 ≤ lat ∧ lat ≤ 90) then .error "Latitude must be between -90 and 90"
  else if ¬(-180 ≤ lon ∧ lon ≤ 180) then .error "Longitude must be between -180 and 180"
  else .ok (if mode = "simple" then simpleMetrics p else comprehensiveMetrics p)

/-- `GEEQueryEngine.query_single_pillar` from engine.py: reject an unknown
pillar id, then delegate to the pillar handler's `query`. -/
def query_single_pillar (lat lon : ℚ) (pillar mode : String) :
    Except String (List String) :=
  match (match pillar with
    | "A" => some Pillar.A | "B" => some Pillar.B | "C" => some Pillar.C
    | "D" => some Pillar.D | "E" => some Pillar.E | _ => none) with
  | none => .error "Invalid pillar"
  | some p => base_pillar_query p lat lon mode

/-- `AtmosphericPillar._assess_aod_quality` from pillars/atmospheric.py. -/
def assess_aod_quality (value : Option ℚ) : String :=
  match value with
  | none => "unavailable"
  | some v =>
    if v < 0 ∨ v > 3 then "poor"
    else if v < 0.1 then "good"
    else if v < 0.3 then "moderate"
    else "good"

/-! ## Spec-side reference definitions and claim theorems -/

/-- Spec-side AOD quality flag, written from the claimed intervals: in
[0, 0.1) good, in [0.1, 0.3) moderate, in [0.3, 3] good again, below 0 or
above 3 poor, null unavailable. -/
def specAodQuality (value : Option ℚ) : String :=
  match value with
  | none => "unavailable"
  | some v =>
    if v < 0 then "poor"
    else if v < 0.1 then "good"
    else if v < 0.3 then "moderate"
    else if v ≤ 3 then "good"
    else "poor"

/-- Claim C10: the atmospheric pillar's AOD quality flag is non-monotone in
the AOD value: for AOD in [0, 0.1) it is good, in [0.1, 0.3) moderate, in
[0.3, 3] good again, only below 0 or above 3 poor, and null is unavailable. -/
theorem aod_quality_matches_bands (value : Option ℚ) :
    assess_aod_quality value = specAodQuality value := by
  cases value with
  | none => rfl
  | some v =>
    simp only [assess_aod_quality, specAodQuality]
    split_ifs <;> first
      | rfl
      | (exfalso; casesm* _ ∨ _ <;> linarith)
      | (exfalso; push_neg at *; casesm* _ ∧ _
         all_goals linarith)

/-- Does an optional value hold and exceed the bound? -/
def optGt (x : Option ℚ) (c : ℚ) : Bool :=
  match x with
  | some t => decide (c < t)
  | none => false

/-- Does an optional value hold and lie below the bound? -/
def optLt (x : Option ℚ) (c : ℚ) : Bool :=
  match x with
  | some t => decide (t < c)
  | none => false

/-- Spec-side ecosystem detection, written from the claim's decision
procedure: land-cover lookup, tropical-forest downgrade below 25% tree
cover, urban-green override above 0.6 human modification, and the
tree-cover/human-modification fallback cascade when land cover is absent. -/
def specDetectEcosystem (land_cover : Option ℤ) (tree_cover human_mod : Option ℚ) : String :=
  match land_cover with
  | some lc =>
    let primary := ((LANDCOVER_TO_ECOSYSTEM.find? (fun e => e.1 = lc)).map
      (fun e => e.2)).getD "default"
    let refined :=
      if primary = "tropical_forest" ∧ optLt tree_cover 25 then "grassland_savanna"
      else primary
    if optGt human_mod 0.6 ∧ ¬(refined = "urban_green" ∨ refined = "agricultural")
    then "urban_green" else refined
  | none =>
    if optGt tree_cover 50 then "tropical_forest"
    else if optGt tree_cover 10 then "grassland_savanna"
    else if optGt human_mod 0.5 then "urban_green"
    else if optGt human_mod 0.3 then "agricultural"
    else "default"

/-- Claim C8: ecosystem detection follows the spec's decision procedure
exactly, and absent inputs never raise: with all three inputs absent the
classifier returns "default". -/
theorem detect_ecosystem_matches_spec :
    (∀ (land_cover : Option ℤ) (tree_cover human_mod : Option ℚ),
      detect_ecosystem_type land_cover tree_cover human_mod =
        specDetectEcosystem land_cover tree_cover human_mod) ∧
    detect_ecosystem_type none none none = "default" := by
  refine ⟨?_, rfl⟩
  intro land_cover tree_cover human_mod
  cases land_cover with
  | some lc =>
    cases tree_cover <;> cases human_mod <;>
      simp only [detect_ecosystem_type, specDetectEcosystem, optLt, optGt,
        decide_eq_true_eq, not_or] <;>
      split_ifs <;> first | rfl | tauto
  | none =>
    cases tree_cover <;> cases human_mod <;>
      simp only [detect_ecosystem_type, specDetectEcosystem, optLt, optGt,
        decide_eq_true_eq] <;>
      split_ifs <;> first | rfl | tauto

/-- The all-zero pillar-score map: every pillar present with score 0. -/
def allZeroScores : List (String × Option ℚ) :=
  [("A", some 0), ("B", some 0), ("C", some 0), ("D", some 0), ("E", some 0)]

lemma overall_score_all_zero :
    calculate_overall_score allZeroScores "default" = some 0 := by
  simp [calculate_overall_score, allZeroScores, overallStep, pillarWeight,
    ecosystemProfile, ECOSYSTEM_CATEGORY_WEIGHTS, round2, round_eq]
  norm_num

/-- Claim C9: when the computed overall score is exactly 0, the summary
reports overall_interpretation "Unavailable" (the null branch, via Python
falsy zero) and a null esv_multiplier, even though the interpretation
function applied to 0 directly yields "Critical". -/
theorem overall_zero_summary_unavailable :
    calculate_overall_score allZeroScores "default" = some 0 ∧
    summary_interpretation (some 0) = "Unavailable" ∧
    summary_esv_multiplier (some 0) = none ∧
    get_score_interpretation (some 0) = "Critical" := by
  refine ⟨overall_score_all_zero, rfl, ?_, rfl⟩
  simp [summary_esv_multiplier, pyTruthy]

/-- Claim C5 (code bug): an all-zero pillar outcome yields overall score
exactly 0, and `_calculate_esv` at PHI score 0 with a positive area reaches
`base_esv_per_ha * (1 + None)`, an uncaught TypeError: the polygon query
raises after validation passed, contradicting the never-raises guarantee. -/
theorem polygon_esv_raises_on_zero_score :
    calculate_overall_score allZeroScores "default" = some 0 ∧
    calculate_esv (some 0) "default" (some 1) = EsvResult.typeError := by
  refine ⟨overall_score_all_zero, ?_⟩
  have hmult : calculate_phi_esv_multiplier (some ((0 : ℚ) : ℝ)) = none := by
    simp [calculate_phi_esv_multiplier]
  simp only [calculate_esv, hmult]
  norm_num

/-! ## C3: the PHI-to-ESV multiplier -/

lemma log_fifty_lt : Real.log 50 < 3.92 := by
  rw [Real.log_lt_iff_lt_exp (by norm_num)]
  have hexp : Real.exp (3.92 : ℝ) ^ (25 : ℕ) = Real.exp 1 ^ (98 : ℕ) := by
    rw [← Real.exp_nat_mul, ← Real.exp_nat_mul]; norm_num
  have hpow : (50 : ℝ) ^ (25 : ℕ) < Real.exp (3.92 : ℝ) ^ (25 : ℕ) := by
    rw [hexp]
    calc (50 : ℝ) ^ (25 : ℕ) < 2.7182818283 ^ (98 : ℕ) := by norm_num
      _ < Real.exp 1 ^ (98 : ℕ) :=
          pow_lt_pow_left₀ Real.exp_one_gt_d9 (by norm_num) (by norm_num)
  exact lt_of_pow_lt_pow_left₀ 25 (Real.exp_pos _).le hpow

lemma log_fifty_gt : 3.9 < Real.log 50 := by
  rw [Real.lt_log_iff_exp_lt (by norm_num)]
  have hexp : Real.exp (3.9 : ℝ) ^ (10 : ℕ) = Real.exp 1 ^ (39 : ℕ) := by
    rw [← Real.exp_nat_mul, ← Real.exp_nat_mul]; norm_num
  have hpow : Real.exp (3.9 : ℝ) ^ (10 : ℕ) < (50 : ℝ) ^ (10 : ℕ) := by
    rw [hexp]
    calc Real.exp 1 ^ (39 : ℕ) < 2.7182818286 ^ (39 : ℕ) :=
          pow_lt_pow_left₀ Real.exp_one_lt_d9 (Real.exp_pos 1).le (by norm_num)
      _ < (50 : ℝ) ^ (10 : ℕ) := by norm_num
  exact lt_of_pow_lt_pow_left₀ 10 (by norm_num) hpow

/-- Spec-side ESV multiplier, written from the claim's formula: the base is
built from the raw phi score, only the logarithm argument is clamped at 1. -/
noncomputable def specEsvMultiplierClaim (phi : ℝ) : ℝ :=
  round4 ((phi - 50) / 100 * 0.6 * (1 + 0.15 * Real.log (max phi 1 / 50)))

/-- C3 counterexample: at phi = 0.01 the code clamps phi to 1 before
computing the base term, the claimed formula does not, and the two rounded
multipliers differ. -/
theorem esv_multiplier_claim_counterexample :
    calculate_phi_esv_multiplier (some (1 / 100 : ℝ)) ≠
      some (specEsvMultiplierClaim (1 / 100)) := by
  have hmax : max (1 / 100 : ℝ) 1 = 1 := max_eq_right (by norm_num)
  set L : ℝ := Real.log (1 / 50 : ℝ) with hLdef
  have hLeq : L = -Real.log 50 := by rw [hLdef, one_div, Real.log_inv]
  have hLlo : -3.92 < L := by rw [hLeq]; linarith [log_fifty_lt]
  have hLhi : L < -3.9 := by rw [hLeq]; linarith [log_fifty_gt]
  have hcode : calculate_phi_esv_multiplier (some (1 / 100 : ℝ)) =
      some (round4 ((1 - 50) / 100 * ((PHI_ESV_k : ℚ) : ℝ) *
        (1 + ((PHI_ESV_alpha : ℚ) : ℝ) * L))) := by
    simp only [calculate_phi_esv_multiplier, hmax]
    rw [if_neg (by norm_num), if_neg (by norm_num)]
  have hclaim : specEsvMultiplierClaim (1 / 100) =
      round4 ((1 / 100 - 50) / 100 * 0.6 * (1 + 0.15 * L)) := by
    rw [specEsvMultiplierClaim, hmax]
  rw [hcode, hclaim]
  intro h
  replace h := Option.some.inj h
  set A : ℝ := (1 - 50) / 100 * ((PHI_ESV_k : ℚ) : ℝ) * (1 + ((PHI_ESV_alpha : ℚ) : ℝ) * L)
    with hAdef
  set B : ℝ := (1 / 100 - 50) / 100 * 0.6 * (1 + 0.15 * L) with hBdef
  have hA : A = -0.294 * (1 + 0.15 * L) := by
    rw [hAdef]; norm_num [PHI_ESV_k, PHI_ESV_alpha]
  have hgap : B + 1 / 10000 < A := by rw [hA, hBdef]; nlinarith
  have hra := abs_sub_round (A * 10000)
  have hrb := abs_sub_round (B * 10000)
  rw [abs_le] at hra hrb
  have hlt : ((round (B * 10000) : ℤ) : ℝ) / 10000 < ((round (A * 10000) : ℤ) : ℝ) / 10000 := by
    have h1 : ((round (B * 10000) : ℤ) : ℝ) ≤ B * 10000 + 1 / 2 := by linarith [hrb.1]
    have h2 : A * 10000 - 1 / 2 ≤ ((round (A * 10000) : ℤ) : ℝ) := by linarith [hra.2]
    have h3 : B * 10000 + 1 / 2 < A * 10000 - 1 / 2 := by linarith
    linarith
  rw [round4, round4] at h
  linarith [hlt, le_of_eq h]

/-- Spec-side ESV multiplier as amended: both the base term and the
logarithm argument use the clamped score max(phi, 1). -/
noncomputable def specEsvMultiplierAmended (phi : ℝ) : ℝ :=
  round4 ((max phi 1 - 50) / 100 * 0.6 * (1 + 0.15 * Real.log (max phi 1 / 50)))

/-- Claim C3 as amended: ESVMultiplier(phi) is null exactly when phi is null
or phi is at most 0; otherwise it equals
round4(((max(phi,1) - 50)/100) * 0.6 * (1 + 0.15 * ln(max(phi,1)/50))),
and ESVMultiplier(50) is exactly 0 (so certainly within 1e-6 of 0). -/
theorem esv_multiplier_amended (p : ℝ) :
    calculate_phi_esv_multiplier none = none ∧
    (p ≤ 0 → calculate_phi_esv_multiplier (some p) = none) ∧
    (0 < p → calculate_phi_esv_multiplier (some p) = some (specEsvMultiplierAmended p)) ∧
    calculate_phi_esv_multiplier (some 50) = some 0 := by
  refine ⟨rfl, ?_, ?_, ?_⟩
  · intro hp
    simp [calculate_phi_esv_multiplier, hp]
  · intro hp
    have hratio : ¬(max p 1 / 50 ≤ 0) := by
      push_neg
      have h1 : (1 : ℝ) ≤ max p 1 := le_max_right p 1
      positivity
    simp only [calculate_phi_esv_multiplier]
    rw [if_neg (not_le.2 hp), if_neg hratio]
    norm_num [specEsvMultiplierAmended, PHI_ESV_k, PHI_ESV_alpha]
  · have hmax : max (50 : ℝ) 1 = 50 := max_eq_left (by norm_num)
    simp only [calculate_phi_esv_multiplier, hmax]
    rw [if_neg (by norm_num), if_neg (by norm_num)]
    norm_num [round4]

/-- Witness for C3's amended theorem at phi = 2 and phi = -1. -/
theorem esv_multiplier_amended_witness :
    calculate_phi_esv_multiplier (some 2) = some (specEsvMultiplierAmended 2) ∧
    calculate_phi_esv_multiplier (some (-1)) = none :=
  ⟨(esv_multiplier_amended 2).2.2.1 (by norm_num),
   (esv_multiplier_amended (-1)).2.1 (by norm_num)⟩

/-! ## C4: the Data Quality Score -/

/-- Spec-side availability score from the claim's table: unavailable 0,
poor 0.25, moderate 0.5, good 1. -/
def specAvailabilityScore (available : Bool) (quality : String) : ℚ :=
  if available = false ∨ quality = "unavailable" then 0
  else if quality = "poor" then 0.25
  else if quality = "moderate" then 0.5
  else 1

/-- The metrics that contribute to the DQS: positive MetricSpec weight. -/
def dqsMetrics : List MetricParam :=
  PHI_METRIC_PARAMS.filter (fun m => decide (0 < m.weight))

/-- Spec-side DQS from the claim's formula:
Sum(criticalityWeight * availability) / Sum(criticalityWeight) * 100 over
the positive-weight metrics, rounded to 2 decimals. -/
def specDqs (avail : String → Bool) (flags : String → String) : ℚ :=
  round2 ((dqsMetrics.map (fun m => criticalityWeight m.criticality *
      specAvailabilityScore (avail m.name) (flags m.name))).sum /
    (dqsMetrics.map (fun m => criticalityWeight m.criticality)).sum * 100)

lemma availScore_eq (avail : String → Bool) (flags : String → String) (n : String) :
    (if ¬ avail n ∨ flags n = "unavailable" then (0 : ℚ)
      else if flags n = "poor" then 0.25
      else if flags n = "moderate" then 0.5
      else 1) = specAvailabilityScore (avail n) (flags n) := by
  cases h : avail n <;> simp [specAvailabilityScore, h]

lemma dqs_foldl_eq (avail : String → Bool) (flags : String → String)
    (l : List MetricParam) (hw : ∀ m ∈ l, 0 ≤ m.weight) (a b : ℚ) :
    l.foldl (dqsStep avail flags) (a, b) =
      (a + ((l.filter (fun m => decide (0 < m.weight))).map (fun m =>
          criticalityWeight m.criticality *
            specAvailabilityScore (avail m.name) (flags m.name))).sum,
       b + ((l.filter (fun m => decide (0 < m.weight))).map (fun m =>
          criticalityWeight m.criticality)).sum) := by
  induction l generalizing a b with
  | nil => simp
  | cons m t ih =>
    have hm : (0 : ℚ) ≤ m.weight := hw m (by simp)
    have ht : ∀ x ∈ t, (0 : ℚ) ≤ x.weight := fun x hx => hw x (by simp [hx])
    rw [List.foldl_cons]
    by_cases h0 : m.weight = 0
    · have hfilter : (m :: t).filter (fun m => decide (0 < m.weight)) =
          t.filter (fun m => decide (0 < m.weight)) := by
        rw [List.filter_cons_of_neg]
        simp [h0]
      have hstep : dqsStep avail flags (a, b) m = (a, b) := by
        simp [dqsStep, h0]
      rw [hstep, hfilter, ih ht]
    · have hlt : (0 : ℚ) < m.weight := lt_of_le_of_ne hm (Ne.symm h0)
      have hfilter : (m :: t).filter (fun m => decide (0 < m.weight)) =
          m :: t.filter (fun m => decide (0 < m.weight)) := by
        rw [List.filter_cons_of_pos]
        simpa using hlt
      have hstep : dqsStep avail flags (a, b) m =
          (a + criticalityWeight m.criticality *
            specAvailabilityScore (avail m.name) (flags m.name),
           b + criticalityWeight m.criticality) := by
        simp only [dqsStep, h0, if_false, availScore_eq]
      rw [hstep, hfilter, ih ht]
      simp only [List.map_cons, List.sum_cons, Prod.mk.injEq]
      constructor <;> ring

lemma dqs_weights_nonneg : ∀ m ∈ PHI_METRIC_PARAMS, (0 : ℚ) ≤ m.weight := by
  intro m hm
  fin_cases hm <;> norm_num

lemma dqs_total_weight :
    (dqsMetrics.map (fun m => criticalityWeight m.criticality)).sum = 11.6 := by
  simp only [dqsMetrics, PHI_METRIC_PARAMS]
  norm_num [List.filter_cons]
  simp [criticalityWeight, CRITICALITY_WEIGHTS]
  norm_num

/-- Claim C4: the DQS equals
Sum(criticalityWeight * availability) / Sum(criticalityWeight) * 100 rounded
to 2 decimals over the positive-weight metrics (weights critical 1.0,
important 0.7, supporting 0.4, auxiliary 0.2; availability unavailable 0,
poor 0.25, moderate 0.5, good 1; weight-0 metrics excluded), and in
particular equals 100 when every positive-weight metric is available with
quality good. -/
theorem dqs_matches_formula (avail : String → Bool) (flags : String → String) :
    calculate_dqs avail flags = specDqs avail flags ∧
    ((∀ m ∈ PHI_METRIC_PARAMS, 0 < m.weight →
        avail m.name = true ∧ flags m.name = "good") →
      calculate_dqs avail flags = 100) := by
  have hfold := dqs_foldl_eq avail flags PHI_METRIC_PARAMS dqs_weights_nonneg 0 0
  have hmain : calculate_dqs avail flags = specDqs avail flags := by
    unfold calculate_dqs specDqs
    rw [hfold]
    simp only [zero_add]
    rw [if_neg]
    · rfl
    · rw [show (PHI_METRIC_PARAMS.filter (fun m => decide (0 < m.weight))) = dqsMetrics
          from rfl, dqs_total_weight]
      norm_num
  refine ⟨hmain, fun hall => ?_⟩
  rw [hmain]
  have hone : ∀ m ∈ dqsMetrics,
      criticalityWeight m.criticality *
        specAvailabilityScore (avail m.name) (flags m.name) =
      criticalityWeight m.criticality := by
    intro m hmem
    have h1 := List.of_mem_filter hmem
    have h2 := List.mem_of_mem_filter hmem
    have h3 := hall m h2 (by simpa using h1)
    simp [specAvailabilityScore, h3.1, h3.2]
  unfold specDqs
  rw [List.map_congr_left hone, dqs_total_weight]
  norm_num [round2, round_eq]

/-- Witness for C4 with every metric available at quality good. -/
theorem dqs_matches_formula_witness :
    calculate_dqs (fun _ => true) (fun _ => "good") = 100 :=
  (dqs_matches_formula (fun _ => true) (fun _ => "good")).2
    (fun _ _ _ => ⟨rfl, rfl⟩)

/-! ## C2: per-pillar failure capture and the renormalized overall score -/

lemma pillarWeight_pos (et : String) (p : Pillar) : 0 < pillarWeight et p.pid := by
  rcases hfind : ECOSYSTEM_CATEGORY_WEIGHTS.find? (fun e => e.1 = et) with _ | entry
  · cases p <;>
      simp [pillarWeight, ecosystemProfile, hfind, Pillar.pid] <;> norm_num
  · have hmem : entry ∈ ECOSYSTEM_CATEGORY_WEIGHTS := List.mem_of_find?_eq_some hfind
    simp only [ECOSYSTEM_CATEGORY_WEIGHTS, List.mem_cons, List.not_mem_nil, or_false]
      at hmem
    rcases hmem with rfl | rfl | rfl | rfl | rfl | rfl | rfl <;> cases p <;>
      simp [pillarWeight, ecosystemProfile, hfind, Pillar.pid] <;> norm_num

lemma overall_foldl_eq (et : String) (scoreQ : Pillar → Option ℚ)
    (l : List Pillar) (a b : ℚ) :
    (l.map (fun p => (p.pid, scoreQ p))).foldl (overallStep et) (a, b) =
      (a + ((l.filter (fun p => (scoreQ p).isSome)).map
          (fun p => (scoreQ p).getD 0 * pillarWeight et p.pid)).sum,
       b + ((l.filter (fun p => (scoreQ p).isSome)).map
          (fun p => pillarWeight et p.pid)).sum) := by
  induction l generalizing a b with
  | nil => simp
  | cons p t ih =>
    rw [List.map_cons, List.foldl_cons]
    rcases hs : scoreQ p with _ | z
    · have hstep : overallStep et (a, b) (p.pid, (none : Option ℚ)) = (a, b) := by
        simp [overallStep]
      have hfilter : (p :: t).filter (fun p => (scoreQ p).isSome) =
          t.filter (fun p => (scoreQ p).isSome) := by
        rw [List.filter_cons_of_neg]
        simp [hs]
      rw [hstep, hfilter, ih]
    · have hstep : overallStep et (a, b) (p.pid, some z) =
          (a + z * pillarWeight et p.pid, b + pillarWeight et p.pid) := by
        simp [overallStep]
      have hfilter : (p :: t).filter (fun p => (scoreQ p).isSome) =
          p :: t.filter (fun p => (scoreQ p).isSome) := by
        rw [List.filter_cons_of_pos]
        simp [hs]
      rw [hstep, hfilter, ih]
      simp only [List.map_cons, List.sum_cons, hs, Option.getD_some, Prod.mk.injEq]
      constructor <;> ring

lemma optIntCast_getD (o : Option ℤ) :
    (o.map (fun (z : ℤ) => (z : ℚ))).getD 0 = ((o.getD 0 : ℤ) : ℚ) := by
  cases o <;> simp

/-- The pillars whose score is present (non-null) in the summary. -/
def presentPillars (results : Pillar → PillarData) : List Pillar :=
  pillarsOrder.filter (fun p => ((results p).score).isSome)

/-- Spec-side overall score from the claim: the weighted sum over the
pillars actually present, renormalized by the sum of their weights, null
when no pillar is present. -/
def specOverall (results : Pillar → PillarData) (ecosystem_type : String) : Option ℚ :=
  if presentPillars results = [] then none
  else some (round2 (
    ((presentPillars results).map (fun p =>
      (((results p).score.getD 0 : ℤ) : ℚ) * pillarWeight ecosystem_type p.pid)).sum /
    ((presentPillars results).map (fun p => pillarWeight ecosystem_type p.pid)).sum))

lemma summary_overall_eq_spec (results : Pillar → PillarData) (et : String) :
    summary_overall results et = specOverall results et := by
  unfold summary_overall calculate_overall_score summary_pillar_scores specOverall
  rw [if_neg (by simp [pillarsOrder])]
  rw [overall_foldl_eq et (fun p => ((results p).score).map (fun (z : ℤ) => (z : ℚ)))
    pillarsOrder 0 0]
  simp only [zero_add, Option.isSome_map', optIntCast_getD]
  by_cases hpres : presentPillars results = []
  · rw [if_pos hpres]
    unfold presentPillars at hpres
    rw [hpres]
    simp
  · rw [if_neg hpres]
    unfold presentPillars at hpres ⊢
    have hwpos : 0 < ((pillarsOrder.filter (fun p => ((results p).score).isSome)).map
        (fun p => pillarWeight et p.pid)).sum := by
      apply List.sum_pos
      · intro x hx
        rcases List.mem_map.1 hx with ⟨p, _, rfl⟩
        exact pillarWeight_pos et p
      · simpa using hpres
    rw [if_neg (ne_of_gt hwpos)]

/-- Claim C2: when the handler for pillar C throws, the orchestrator captures
the failure as an error entry with empty metrics for that pillar only, C's
score is null and excluded from the summary, and the overall score is the
ecosystem-weighted sum over the pillars actually present, renormalized by
their weights (non-null as soon as any other pillar has a score). -/
theorem pillar_failure_excluded
    (outcomes : Pillar → Except String (List (String × Option ℝ)))
    (e : String) (et : String) (h : outcomes Pillar.C = .error e) :
    ((add_scores (query_pillars outcomes)) Pillar.C).error = some e ∧
    ((add_scores (query_pillars outcomes)) Pillar.C).metrics = [] ∧
    ((add_scores (query_pillars outcomes)) Pillar.C).score = none ∧
    (∀ p m, outcomes p = .ok m →
      ((add_scores (query_pillars outcomes)) p).error = none ∧
      ((add_scores (query_pillars outcomes)) p).metrics = m) ∧
    Pillar.C ∉ presentPillars (add_scores (query_pillars outcomes)) ∧
    summary_overall (add_scores (query_pillars outcomes)) et =
      specOverall (add_scores (query_pillars outcomes)) et ∧
    (presentPillars (add_scores (query_pillars outcomes)) ≠ [] →
      summary_overall (add_scores (query_pillars outcomes)) et ≠ none) := by
  have hC : (add_scores (query_pillars outcomes)) Pillar.C =
      { error := some e, metrics := [],
        score := calculate_pillar_score "C" [] } := by
    simp [add_scores, query_pillars, h, Pillar.pid]
  have hscoreC : calculate_pillar_score "C" [] = none := by
    simp [calculate_pillar_score, calculate_category_score]
  refine ⟨by rw [hC], by rw [hC], by rw [hC]; exact hscoreC, ?_, ?_,
    summary_overall_eq_spec _ et, ?_⟩
  · intro p m hp
    constructor <;> simp [add_scores, query_pillars, hp]
  · simp only [presentPillars, List.mem_filter]
    rintro ⟨-, habs⟩
    rw [hC] at habs
    simp [hscoreC] at habs
  · intro hpres
    rw [summary_overall_eq_spec _ et]
    simp [specOverall, hpres]

/-- Example handler outcomes for the C2 witness: pillar C throws, the other
four return one metric each. -/
def exOutcomes : Pillar → Except String (List (String × Option ℝ))
  | .A => .ok [("aod", some 0.75)]
  | .B => .ok [("ndvi", some 0.65)]
  | .C => .error "boom"
  | .D => .ok [("drought_index", some 0)]
  | .E => .ok [("human_modification", some 0.5)]

/-- Witness for C2 at a concrete set of handler outcomes. -/
theorem pillar_failure_excluded_witness :
    ((add_scores (query_pillars exOutcomes)) Pillar.C).error = some "boom" ∧
    ((add_scores (query_pillars exOutcomes)) Pillar.C).score = none ∧
    summary_overall (add_scores (query_pillars exOutcomes)) "default" =
      specOverall (add_scores (query_pillars exOutcomes)) "default" :=
  ⟨(pillar_failure_excluded exOutcomes "boom" "default" rfl).1,
   (pillar_failure_excluded exOutcomes "boom" "default" rfl).2.2.1,
   (pillar_failure_excluded exOutcomes "boom" "default" rfl).2.2.2.2.2.1⟩

/-! ## C6: validation in query_single_pillar -/

/-- C6 counterexample: with valid coordinates and the invalid mode "bogus",
`query_single_pillar` does not raise a ValidationError: the fetch is
dispatched with the comprehensive metric list (any mode other than "simple"
selects the comprehensive set). -/
theorem single_pillar_invalid_mode_dispatches :
    query_single_pillar 0 0 "A" "bogus" =
      Except.ok ["aod", "aqi", "uv_index", "visibility", "cloud_fraction"] := by
  rfl

/-- Claim C6 as amended: `query_single_pillar` validates latitude and
longitude (through the pillar handler's own checks) before any metric fetch
is dispatched, but does not validate the mode: any mode other than "simple"
is silently treated as comprehensive and the fetch is dispatched. -/
theorem single_pillar_validation_amended (lat lon : ℚ) (p : Pillar) (mode : String) :
    ((lat < -90 ∨ 90 < lat ∨ lon < -180 ∨ 180 < lon) →
      ∃ msg, query_single_pillar lat lon p.pid mode = .error msg) ∧
    (-90 ≤ lat → lat ≤ 90 → -180 ≤ lon → lon ≤ 180 →
      query_single_pillar lat lon p.pid mode =
        .ok (if mode = "simple" then simpleMetrics p else comprehensiveMetrics p)) := by
  have hsel : query_single_pillar lat lon p.pid mode = base_pillar_query p lat lon mode := by
    cases p <;> rfl
  rw [hsel]
  unfold base_pillar_query
  constructor
  · intro hbad
    by_cases hlat : -90 ≤ lat ∧ lat ≤ 90
    · have hlon : ¬(-180 ≤ lon ∧ lon ≤ 180) := by
        rcases hbad with h | h | h | h
        · exact absurd hlat.1 (not_le.2 h)
        · exact absurd hlat.2 (not_le.2 h)
        · intro hc; linarith [hc.1]
        · intro hc; linarith [hc.2]
      rw [if_neg (not_not_intro hlat), if_pos hlon]
      exact ⟨_, rfl⟩
    · rw [if_pos hlat]
      exact ⟨_, rfl⟩
  · intro h1 h2 h3 h4
    rw [if_neg (not_not_intro ⟨h1, h2⟩), if_neg (not_not_intro ⟨h3, h4⟩)]

/-- Witness for C6's amended theorem: latitude 100 is rejected, and a valid
simple-mode query on pillar B dispatches its simple metric list. -/
theorem single_pillar_validation_amended_witness :
    (∃ msg, query_single_pillar 100 0 "A" "comprehensive" = .error msg) ∧
    query_single_pillar 20 30 "B" "simple" = .ok (simpleMetrics Pillar.B) := by
  constructor
  · exact (single_pillar_validation_amended 100 0 Pillar.A "comprehensive").1 (by norm_num)
  · have h := (single_pillar_validation_amended 20 30 Pillar.B "simple").2
      (by norm_num) (by norm_num) (by norm_num) (by norm_num)
    simpa using h

/-! ## C7: carbon credits -/

/-- Spec-side confidence factor as claimed: min(dqs/100, 1), with 0.7 used
only when the DQS is missing. -/
def specCarbonConfidenceClaim (dqs : Option ℚ) : ℚ :=
  match dqs with
  | none => 0.7
  | some d => min (d / 100) 1

/-- C7 counterexample: with carbon stock 10, area 1 ha and DQS exactly 0,
the code's confidence factor is 0.7 (Python falsy zero) and the verified
CO2e is 25.69, while the claimed confidence min(0/100, 1) is 0. -/
theorem carbon_credits_claim_counterexample :
    calculate_carbon_credits none (some 10) none (some 1) (some 0) =
      CarbonCredits.ok 10 10 36.7 25.69 0.7 385.35 642.25 1284.5 ∧
    specCarbonConfidenceClaim (some 0) = 0 ∧ (0.7 : ℚ) ≠ 0 := by
  refine ⟨?_, ?_, by norm_num⟩
  · simp [calculate_carbon_credits, round2, round_eq]
    norm_num
  · simp [specCarbonConfidenceClaim]

/-- Spec-side carbon per hectare as amended: carbonStock if present, else
biomass times 0.5, else treeCover times 2 when treeCover is positive, else
no data. -/
def specCarbonPerHa (biomass carbon_stock tree_cover : Option ℚ) : Option ℚ :=
  match carbon_stock, biomass, tree_cover with
  | some cs, _, _ => some cs
  | none, some b, _ => some (b * 0.5)
  | none, none, some tc => if 0 < tc then some (tc * 2) else none
  | none, none, none => none

/-- Spec-side confidence factor as amended: min(dqs/100, 1), with 0.7 used
when the DQS is missing or zero. -/
def specCarbonConfidenceAmended (dqs : Option ℚ) : ℚ :=
  match dqs with
  | none => 0.7
  | some d => if d = 0 then 0.7 else min (d / 100) 1

lemma carbonConfidence_eq (dqs : Option ℚ) :
    (match dqs with
      | none => (0.7 : ℚ)
      | some d => if d ≠ 0 then min (d / 100) 1 else 0.7) =
    specCarbonConfidenceAmended dqs := by
  cases dqs with
  | none => rfl
  | some d => by_cases hd : d = 0 <;> simp [specCarbonConfidenceAmended, hd]

/-- Claim C7 as amended: for a positive area, carbon per hectare is
carbonStock if present, else biomass times 0.5, else treeCover times 2 when
treeCover is positive (insufficient data otherwise); total carbon, CO2e at
factor 3.67 and $15/$25/$50 pricing as claimed; and the confidence factor is
min(dqs/100, 1) with 0.7 used when the DQS is missing or zero. -/
theorem carbon_credits_amended (biomass carbon_stock tree_cover : Option ℚ)
    (a : ℚ) (dqs : Option ℚ) (h : 0 < a) :
    calculate_carbon_credits biomass carbon_stock tree_cover (some a) dqs =
      match specCarbonPerHa biomass carbon_stock tree_cover with
      | none => CarbonCredits.insufficient
      | some c =>
        CarbonCredits.ok (round2 c) (round2 (c * a)) (round2 (c * a * 3.67))
          (round2 (c * a * 3.67 * specCarbonConfidenceAmended dqs))
          (round2 (specCarbonConfidenceAmended dqs))
          (round2 (c * a * 3.67 * specCarbonConfidenceAmended dqs * 15))
          (round2 (c * a * 3.67 * specCarbonConfidenceAmended dqs * 25))
          (round2 (c * a * 3.67 * specCarbonConfidenceAmended dqs * 50)) := by
  unfold calculate_carbon_credits specCarbonPerHa
  dsimp only
  rw [if_neg (not_le.2 h)]
  rcases carbon_stock with _ | cs
  · rcases biomass with _ | b
    · rcases tree_cover with _ | tc
      · rfl
      · dsimp only
        by_cases htc : 0 < tc
        · rw [if_pos htc]
          dsimp only
          simp only [carbonConfidence_eq]
        · rw [if_neg htc]
    · simp only [carbonConfidence_eq]
  · simp only [carbonConfidence_eq]

/-- Witness for C7's amended theorem: biomass 100, area 2 ha, DQS 80. -/
theorem carbon_credits_amended_witness :
    (0 : ℚ) < 2 ∧
    calculate_carbon_credits (some 100) none none (some 2) (some 80) =
      match specCarbonPerHa (some 100) none none with
      | none => CarbonCredits.insufficient
      | some c =>
        CarbonCredits.ok (round2 c) (round2 (c * 2)) (round2 (c * 2 * 3.67))
          (round2 (c * 2 * 3.67 * specCarbonConfidenceAmended (some 80)))
          (round2 (specCarbonConfidenceAmended (some 80)))
          (round2 (c * 2 * 3.67 * specCarbonConfidenceAmended (some 80) * 15))
          (round2 (c * 2 * 3.67 * specCarbonConfidenceAmended (some 80) * 25))
          (round2 (c * 2 * 3.67 * specCarbonConfidenceAmended (some 80) * 50)) :=
  ⟨by norm_num, carbon_credits_amended (some 100) none none 2 (some 80) (by norm_num)⟩

end PlanetaryHealth
